import Mathlib

/-!
Verification development for the game-decider backend.

The definitions below are a shallow embedding of the compatibility-scoring
service (`app/services/compatibility.py`) and the curated-library selection
endpoints (`app/api/v1/endpoints/games.py`, together with the parts of
`app/repositories/game.py` they call).

Modelling conventions:
* Python `float` values (complexity ratings, scores) are modelled as `ℚ`;
  every float computation in the modelled code is a sum / product / quotient
  of small dyadic or small-denominator values, which binary floating point
  represents exactly, so `ℚ` is faithful here.
* Database integer columns are `ℤ`; identifiers (UUIDs) are opaque `ℕ`.
* A SQL result set is a Lean list; a query without `ORDER BY` (such as the
  played-games query) returns the matching rows in catalog row order, and
  `ORDER BY name` is a stable sort by the code points of the name (the
  names used in the development are plain ASCII).
-/

attribute [local semireducible] Rat.add Rat.sub Rat.mul Rat.ofScientific Rat.inv

namespace GameDecider

/-- `Game` row (`app/models/game.py`): the attributes used by the modelled
code, with `categories` as the set of category ids (the ORM relationship is
only ever consulted for the ids in `calculate_compatibility`). -/
structure Game where
  id : ℕ
  name : String
  min_players : ℤ
  max_players : ℤ
  average_play_time : ℤ
  complexity_rating : ℚ
  categories : List ℕ
deriving DecidableEq, Repr

/-- `PlayerPreferences` row (`app/models/player_preferences.py`);
`preferred_categories` is the list of preferred category ids. -/
structure PlayerPreferences where
  player_id : ℕ
  minimum_play_time : Option ℤ
  maximum_play_time : Option ℤ
  preferred_player_count : Option ℤ
  preferred_complexity_min : Option ℚ
  preferred_complexity_max : Option ℚ
  preferred_categories : List ℕ
deriving DecidableEq, Repr

/-- `CompatibilityResponse` (`app/schemas/compatibility.py`); the `details`
dict is modelled as an association list in insertion order. -/
structure CompatibilityResponse where
  game_id : ℕ
  player_id : ℕ
  compatibility_score : ℚ
  recommendation : String
  details : List (String × String)
deriving DecidableEq, Repr

/-- Player-count factor of `CompatibilityService.calculate_compatibility`
(`compatibility.py` lines 22-31): the pair is (score contribution, verdict). -/
def playerCountFactor (game : Game) (preferences : PlayerPreferences) : ℚ × String :=
  match preferences.preferred_player_count with
  | some n =>
      if game.min_players ≤ n ∧ n ≤ game.max_players then (1, "compatible")
      else (0, "incompatible")
  | none => (0.5, "no_preference")

/-- Play-time factor (`compatibility.py` lines 33-50): both bounds must be
set for the factor to be evaluated at all. -/
def playTimeFactor (game : Game) (preferences : PlayerPreferences) : ℚ × String :=
  match preferences.minimum_play_time, preferences.maximum_play_time with
  | some lo, some hi =>
      if lo ≤ game.average_play_time ∧ game.average_play_time ≤ hi then (1, "compatible")
      else (0, "incompatible")
  | _, _ => (0.5, "no_preference")

/-- Complexity factor (`compatibility.py` lines 52-68). -/
def complexityFactor (game : Game) (preferences : PlayerPreferences) : ℚ × String :=
  match preferences.preferred_complexity_min, preferences.preferred_complexity_max with
  | some lo, some hi =>
      if lo ≤ game.complexity_rating ∧ game.complexity_rating ≤ hi then (1, "compatible")
      else (0, "incompatible")
  | _, _ => (0.5, "no_preference")

/-- Category factor (`compatibility.py` lines 70-83): Python's
`if preferences.preferred_categories:` is the emptiness test, and the set
intersection test `game_category_ids & preferred_category_ids` is overlap
of the id lists. -/
def categoriesFactor (game : Game) (preferences : PlayerPreferences) : ℚ × String :=
  if preferences.preferred_categories = [] then (0.5, "no_preference")
  else if game.categories.any (fun c => preferences.preferred_categories.contains c) then
    (1, "compatible")
  else (0, "incompatible")

/-- `CompatibilityService.calculate_compatibility` (`compatibility.py`
lines 13-94): accumulates the four factor scores, divides by
`max_score = 4.0` and thresholds the recommendation at `0.75`. -/
def calculate_compatibility (game : Game) (preferences : PlayerPreferences) :
    CompatibilityResponse :=
  let pc := playerCountFactor game preferences
  let pt := playTimeFactor game preferences
  let cx := complexityFactor game preferences
  let ct := categoriesFactor game preferences
  let score := pc.1 + pt.1 + cx.1 + ct.1
  let compatibility_score := score / 4
  let recommendation :=
    if compatibility_score ≥ 0.75 then "recommended" else "not_recommended"
  { game_id := game.id
    player_id := preferences.player_id
    compatibility_score := compatibility_score
    recommendation := recommendation
    details := [("player_count", pc.2), ("play_time", pt.2),
                ("complexity", cx.2), ("categories", ct.2)] }

/-- Value of a verdict string in the score sum: 1 for `compatible`,
0.5 for `no_preference`, 0 for `incompatible`. -/
def verdictValue (v : String) : ℚ :=
  if v = "compatible" then 1 else if v = "no_preference" then 0.5 else 0

/-! ## Curated-library selection (`app/api/v1/endpoints/games.py`) -/

/-- Database snapshot: the three tables the curation endpoints join.
`players` holds (player id, username) rows, `history` holds
(player id, game id) rows of `player_game_history`. -/
structure Db where
  games : List Game
  players : List (ℕ × String)
  history : List (ℕ × ℕ)

/-- The four fixed real BGA usernames (`games.py` line 23). -/
def REAL_PLAYERS : List String := ["dandam", "superoogie", "permagoof", "gundlach"]

/-- Whether a game row is matched by the played-games join
(`games.py` lines 220-227): some history row links the game to a player
whose username is in `REAL_PLAYERS`. -/
def isPlayedRow (db : Db) (g : Game) : Bool :=
  db.history.any fun h =>
    h.2 == g.id && db.players.any fun pl => pl.1 == h.1 && REAL_PLAYERS.contains pl.2

/-- Result rows of the `DISTINCT` played-games query. The query carries no
`ORDER BY`, so the model returns the matching games in catalog row order;
`DISTINCT` collapses the join multiplicity, giving each matching game row
once. -/
def playedRows (db : Db) : List Game :=
  db.games.filter (isPlayedRow db)

/-- `played_game_ids` (`games.py` line 231). -/
def played_game_ids (db : Db) : List ℕ :=
  (playedRows db).map Game.id

/-- Code-point lexicographic order on character lists, modelling SQL text
comparison for the ASCII names used here. -/
def charListLe : List Char → List Char → Bool
  | [], _ => true
  | _ :: _, [] => false
  | a :: as, b :: bs =>
    if a.toNat < b.toNat then true
    else if b.toNat < a.toNat then false
    else charListLe as bs

/-- String comparison used to model `ORDER BY Game.name`. -/
def strLe (a b : String) : Bool := charListLe a.data b.data

/-- `ORDER BY Game.name`, modelled as a stable sort by name. -/
def sortByName (l : List Game) : List Game :=
  List.insertionSort (fun a b => strLe a.name b.name = true) l

/-- Number of played-games rows, `len(played_games_data)`. -/
def playedCount (db : Db) : ℕ := (playedRows db).length

/-- `played_games_stats['avg_min_players']` (`games.py` line 247):
arithmetic mean over the played rows. -/
def avg_min_players (db : Db) : ℚ :=
  ((playedRows db).map fun g => (g.min_players : ℚ)).sum / (playedCount db : ℚ)

/-- `played_games_stats['avg_max_players']` (`games.py` line 248). -/
def avg_max_players (db : Db) : ℚ :=
  ((playedRows db).map fun g => (g.max_players : ℚ)).sum / (playedCount db : ℚ)

/-- `played_games_stats['avg_play_time']` (`games.py` line 249). -/
def avg_play_time (db : Db) : ℚ :=
  ((playedRows db).map fun g => (g.average_play_time : ℚ)).sum / (playedCount db : ℚ)

/-- `played_games_stats['avg_complexity']` (`games.py` line 250). -/
def avg_complexity (db : Db) : ℚ :=
  ((playedRows db).map Game.complexity_rating).sum / (playedCount db : ℚ)

/-- Python's `int()` conversion: truncation toward zero. -/
def pyInt (q : ℚ) : ℤ := if 0 ≤ q then ⌊q⌋ else ⌈q⌉

/-- The five-sided similarity window of `get_curated_games`. -/
structure Window where
  min_players_range : ℤ
  max_players_range : ℤ
  min_time_range : ℤ
  max_time_range : ℤ
  min_complexity : ℚ
  max_complexity : ℚ
deriving DecidableEq, Repr

/-- The window bounds exactly as computed at `games.py` lines 258-263:
`int()` truncation is applied to mean ± offset (resp. mean × factor), then
the result is clamped. -/
def similarityWindow (db : Db) : Window where
  min_players_range := max 1 (pyInt (avg_min_players db - 1))
  max_players_range := min 10 (pyInt (avg_max_players db + 2))
  min_time_range := max 15 (pyInt (avg_play_time db * 0.5))
  max_time_range := min 300 (pyInt (avg_play_time db * 2))
  min_complexity := max 1.0 (avg_complexity db - 1.0)
  max_complexity := min 5.0 (avg_complexity db + 1.0)

/-- The five two-sided bound checks of the similar-games query
(`games.py` lines 268-275). -/
def inWindow (w : Window) (g : Game) : Bool :=
  decide (w.min_players_range ≤ g.min_players) &&
  decide (g.max_players ≤ w.max_players_range) &&
  decide (w.min_time_range ≤ g.average_play_time) &&
  decide (g.average_play_time ≤ w.max_time_range) &&
  decide (w.min_complexity ≤ g.complexity_rating) &&
  decide (g.complexity_rating ≤ w.max_complexity)

/-- The similar-games query before its `LIMIT` clause: games not already
played whose attributes fall in the window, ordered by name
(`games.py` lines 265-277). -/
def similarPool (db : Db) : List Game :=
  sortByName (db.games.filter fun g =>
    !(played_game_ids db).contains g.id && inWindow (similarityWindow db) g)

/-- `similar_game_ids` (`games.py` lines 253-282): the pool is only queried
when `similar_games_needed = max(0, limit - len(played_games_data))` is
positive, and the query is limited to that many rows (ℕ subtraction is the
`max(0, ...)`). -/
def similar_game_ids (db : Db) (limit : ℕ) : List ℕ :=
  let similar_games_needed := limit - playedCount db
  if 0 < similar_games_needed then
    ((similarPool db).map Game.id).take similar_games_needed
  else []

/-- `all_curated_game_ids = played_game_ids + similar_game_ids`
(`games.py` line 285). -/
def all_curated_game_ids (db : Db) (limit : ℕ) : List ℕ :=
  played_game_ids db ++ similar_game_ids db limit

/-- `paginated_game_ids = all_curated_game_ids[skip:skip + limit]`
(`games.py` line 286). -/
def paginated_game_ids (db : Db) (skip limit : ℕ) : List ℕ :=
  ((all_curated_game_ids db limit).drop skip).take limit

/-- `GameRepository.get_by_id` (`game.py` lines 46-56): the unique game row
with the given id, `none` when absent. -/
def get_by_id (db : Db) (gid : ℕ) : Option Game :=
  db.games.find? fun g => g.id == gid

/-- The resolution loop of `get_curated_games` (`games.py` lines 291-294):
fetch each paginated id and append the game only when it resolved. -/
def resolveLoop (db : Db) (ids : List ℕ) : List Game :=
  ids.foldl
    (fun games gid =>
      match get_by_id db gid with
      | some game => games ++ [game]
      | none => games)
    []

/-- `GameRepository.get_all` (`game.py` lines 70-162) restricted to the
parameters the modelled endpoints pass (every call site passes
`search`, `category_ids` and `tag_ids` as `None`, so those filters are
omitted): each present bound contributes its condition — note that
`min_players` filters `Game.max_players >= min_players` and `max_players`
filters `Game.min_players <= max_players` — then `ORDER BY name`,
`OFFSET skip`, `LIMIT limit`. -/
def get_all (db : Db) (skip limit : ℕ)
    (min_players max_players min_play_time max_play_time : Option ℤ)
    (min_complexity max_complexity : Option ℚ) : List Game :=
  let conds : Game → Bool := fun g =>
    (match min_players with
     | some v => decide (v ≤ g.max_players)
     | none => true) &&
    (match max_players with
     | some v => decide (g.min_players ≤ v)
     | none => true) &&
    (match min_play_time with
     | some v => decide (v ≤ g.average_play_time)
     | none => true) &&
    (match max_play_time with
     | some v => decide (g.average_play_time ≤ v)
     | none => true) &&
    (match min_complexity with
     | some v => decide (v ≤ g.complexity_rating)
     | none => true) &&
    (match max_complexity with
     | some v => decide (g.complexity_rating ≤ v)
     | none => true)
  ((sortByName (db.games.filter conds)).drop skip).take limit

/-- `get_curated_games` (`games.py` lines 212-296): if no played games were
found, fall back to `repo.get_all(skip, limit, min_players=2,
max_players=6, min_play_time=30, max_play_time=120)`; otherwise paginate
the combined id list and resolve each id. -/
def get_curated_games (db : Db) (skip limit : ℕ) : List Game :=
  if (playedRows db).isEmpty then
    get_all db skip limit (some 2) (some 6) (some 30) (some 120) none none
  else
    resolveLoop db (paginated_game_ids db skip limit)

/-- Result of the `/curated/count` endpoint. -/
structure CuratedCount where
  played_games : ℤ
  similar_games : ℤ
  total_curated : ℤ
deriving DecidableEq, Repr

/-- `count(distinct Game.id)` over the played-games join
(`games.py` lines 311-319). -/
def playedCountDistinct (db : Db) : ℕ :=
  ((db.games.filter (isPlayedRow db)).map Game.id).dedup.length

/-- `get_curated_games_count` (`games.py` lines 303-328): the similar count
is `max(0, target_total - played_count)` with `target_total = 150`; the
similarity window is never consulted. -/
def get_curated_games_count (db : Db) : CuratedCount :=
  let played_count : ℤ := playedCountDistinct db
  let target_total : ℤ := 150
  let similar_count := max 0 (target_total - played_count)
  { played_games := played_count
    similar_games := similar_count
    total_curated := played_count + similar_count }

/-! ## Definitions following the spec's words, for refinement comparison -/

/-- Modelled from the spec (§4.2 step 5): the similarity window with
ordinary rounding (`round`) applied to the mean before the offset or
factor, as the spec's formulas `round(mean_min_players) − 1` etc. state. -/
def specSimilarityWindow (db : Db) : Window where
  min_players_range := max 1 (round (avg_min_players db) - 1)
  max_players_range := min 10 (round (avg_max_players db) + 2)
  min_time_range := max 15 (round (avg_play_time db * 0.5))
  max_time_range := min 300 (round (avg_play_time db * 2))
  min_complexity := max 1.0 (avg_complexity db - 1.0)
  max_complexity := min 5.0 (avg_complexity db + 1.0)

/-- Modelled from the spec (§4.2 steps 1, 6, 7): the conceptual curated
sequence — played ids ordered by game name, followed by all window-matching
unplayed ids ordered by game name, with no limit pushed into either query. -/
def specCuratedSeq (db : Db) : List ℕ :=
  (sortByName (playedRows db)).map Game.id ++ (similarPool db).map Game.id

/-- Modelled from the spec (§4.2 step 7): `[skip : skip+limit]` slicing of
the conceptual curated sequence after full candidate-set construction. -/
def spec_select_ids (db : Db) (skip limit : ℕ) : List ℕ :=
  ((specCuratedSeq db).drop skip).take limit

/-- Modelled from the spec (§4.2 step 2): the generic fallback filter as the
spec words it — games whose `min_players ∈ [2,6]` and
`average_play_time ∈ [30,120]`, ordered by name, paginated. -/
def specGenericGames (db : Db) (skip limit : ℕ) : List Game :=
  ((sortByName (db.games.filter fun g =>
      decide (2 ≤ g.min_players) && decide (g.min_players ≤ 6) &&
      decide (30 ≤ g.average_play_time) && decide (g.average_play_time ≤ 120))).drop
    skip).take limit

/-! ## Concrete catalog states used by counterexamples and witnesses -/

/-- Catalog with four played games whose `min_players` values average to
11/4 = 2.75, separating `int()` truncation from rounding. -/
def cdb1 : Db where
  games := [⟨1, "A", 2, 4, 60, 2, []⟩, ⟨2, "B", 3, 4, 60, 2, []⟩,
            ⟨3, "C", 3, 4, 60, 2, []⟩, ⟨4, "D", 3, 4, 60, 2, []⟩]
  players := [(1, "dandam")]
  history := [(1, 1), (1, 2), (1, 3), (1, 4)]

/-- Catalog with two played games stored in reverse name order (ids 1, 2)
and one unplayed game (id 3) inside the similarity window. -/
def cdb2 : Db where
  games := [⟨1, "B", 2, 4, 60, 2, []⟩, ⟨2, "A", 2, 4, 60, 2, []⟩,
            ⟨3, "C", 2, 4, 60, 2, []⟩]
  players := [(1, "dandam")]
  history := [(1, 1), (1, 2)]

/-- Catalog with no play history and one game with `min_players = 1`, which
overlaps the 2-6 player range without having `min_players ∈ [2,6]`. -/
def cdb6 : Db where
  games := [⟨1, "A", 1, 4, 60, 2, []⟩]
  players := [(1, "dandam")]
  history := []

/-- `cdb2` with one extra unplayed game: same played count, different
catalog. -/
def cdb7 : Db where
  games := [⟨1, "B", 2, 4, 60, 2, []⟩, ⟨2, "A", 2, 4, 60, 2, []⟩,
            ⟨3, "C", 2, 4, 60, 2, []⟩, ⟨4, "D", 2, 4, 60, 2, []⟩]
  players := [(1, "dandam")]
  history := [(1, 1), (1, 2)]

/-- Game used by the compatibility witnesses. -/
def gEx : Game := ⟨1, "Catan", 3, 5, 60, 3, [10]⟩

/-- Preferences with every field unset. -/
def pEmpty : PlayerPreferences := ⟨7, none, none, none, none, none, []⟩

/-- Preferences satisfying all four factors against `gEx`. -/
def pFull : PlayerPreferences := ⟨7, some 30, some 90, some 4, some 2, some 4, [10]⟩

/-! ## Helper lemmas about the four factors -/

theorem playerCountFactor_cases (g : Game) (p : PlayerPreferences) :
    playerCountFactor g p = (1, "compatible") ∨
    playerCountFactor g p = (0.5, "no_preference") ∨
    playerCountFactor g p = (0, "incompatible") := by
  unfold playerCountFactor
  rcases p.preferred_player_count with _ | n
  · right; left; rfl
  · dsimp only
    split
    · left; rfl
    · right; right; rfl

theorem playTimeFactor_cases (g : Game) (p : PlayerPreferences) :
    playTimeFactor g p = (1, "compatible") ∨
    playTimeFactor g p = (0.5, "no_preference") ∨
    playTimeFactor g p = (0, "incompatible") := by
  unfold playTimeFactor
  rcases p.minimum_play_time with _ | lo <;> rcases p.maximum_play_time with _ | hi
  · right; left; rfl
  · right; left; rfl
  · right; left; rfl
  · dsimp only
    split
    · left; rfl
    · right; right; rfl

theorem complexityFactor_cases (g : Game) (p : PlayerPreferences) :
    complexityFactor g p = (1, "compatible") ∨
    complexityFactor g p = (0.5, "no_preference") ∨
    complexityFactor g p = (0, "incompatible") := by
  unfold complexityFactor
  rcases p.preferred_complexity_min with _ | lo <;> rcases p.preferred_complexity_max with _ | hi
  · right; left; rfl
  · right; left; rfl
  · right; left; rfl
  · dsimp only
    split
    · left; rfl
    · right; right; rfl

theorem categoriesFactor_cases (g : Game) (p : PlayerPreferences) :
    categoriesFactor g p = (1, "compatible") ∨
    categoriesFactor g p = (0.5, "no_preference") ∨
    categoriesFactor g p = (0, "incompatible") := by
  unfold categoriesFactor
  split
  · right; left; rfl
  · split
    · left; rfl
    · right; right; rfl

theorem any_contains_iff (l₁ l₂ : List ℕ) :
    (l₁.any fun c => l₂.contains c) = true ↔ ∃ c, c ∈ l₁ ∧ c ∈ l₂ := by
  simp [List.any_eq_true, List.contains]

/-! ## Claims C3-C5 and C10 -/

/-- Claim C3: the four verdicts follow the stated rules — `player_count`
is decided only when the preference is set and is inclusive at both bounds;
`play_time` and `complexity` require both bounds set (a single bound still
gives `no_preference`) and are inclusive; `categories` is `no_preference`
exactly on an empty preferred set and otherwise compatible iff some
category id is shared. -/
theorem c3_verdict_rules (game : Game) (preferences : PlayerPreferences) :
    (calculate_compatibility game preferences).details =
      [("player_count",
        match preferences.preferred_player_count with
        | some n =>
            if game.min_players ≤ n ∧ n ≤ game.max_players then "compatible"
            else "incompatible"
        | none => "no_preference"),
       ("play_time",
        match preferences.minimum_play_time, preferences.maximum_play_time with
        | some lo, some hi =>
            if lo ≤ game.average_play_time ∧ game.average_play_time ≤ hi then "compatible"
            else "incompatible"
        | _, _ => "no_preference"),
       ("complexity",
        match preferences.preferred_complexity_min, preferences.preferred_complexity_max with
        | some lo, some hi =>
            if lo ≤ game.complexity_rating ∧ game.complexity_rating ≤ hi then "compatible"
            else "incompatible"
        | _, _ => "no_preference"),
       ("categories",
        if preferences.preferred_categories = [] then "no_preference"
        else if ∃ c, c ∈ game.categories ∧ c ∈ preferences.preferred_categories then
          "compatible"
        else "incompatible")] := by
  unfold calculate_compatibility
  dsimp only
  refine congrArg₂ _ (congrArg _ ?_) (congrArg₂ _ (congrArg _ ?_)
    (congrArg₂ _ (congrArg _ ?_) (congrArg₂ _ (congrArg _ ?_) rfl)))
  · unfold playerCountFactor
    rcases preferences.preferred_player_count with _ | n
    · rfl
    · dsimp only
      split <;> rfl
  · unfold playTimeFactor
    rcases preferences.minimum_play_time with _ | lo <;>
      rcases preferences.maximum_play_time with _ | hi
    · rfl
    · rfl
    · rfl
    · dsimp only
      split <;> rfl
  · unfold complexityFactor
    rcases preferences.preferred_complexity_min with _ | lo <;>
      rcases preferences.preferred_complexity_max with _ | hi
    · rfl
    · rfl
    · rfl
    · dsimp only
      split <;> rfl
  · unfold categoriesFactor
    by_cases he : preferences.preferred_categories = []
    · simp [he]
    · rw [if_neg he, if_neg he]
      by_cases hx : ∃ c, c ∈ game.categories ∧ c ∈ preferences.preferred_categories
      · rw [if_pos ((any_contains_iff _ _).mpr hx), if_pos hx]
      · rw [if_neg (fun hb => hx ((any_contains_iff _ _).mp hb)), if_neg hx]

/-- Claim C4: the score is exactly the sum of the four per-verdict
contributions (1 / 0.5 / 0) divided by 4; hence it lies in
{0, 0.125, ..., 1}, equals 0.5 when no preference field is set, and equals
1 when all four verdicts are compatible. -/
theorem c4_score_formula (game : Game) (preferences : PlayerPreferences) :
    ((calculate_compatibility game preferences).compatibility_score =
      (verdictValue (((calculate_compatibility game preferences).details.lookup
          "player_count").getD "") +
       verdictValue (((calculate_compatibility game preferences).details.lookup
          "play_time").getD "") +
       verdictValue (((calculate_compatibility game preferences).details.lookup
          "complexity").getD "") +
       verdictValue (((calculate_compatibility game preferences).details.lookup
          "categories").getD "")) / 4)
    ∧ (calculate_compatibility game preferences).compatibility_score ∈
        ([0, 0.125, 0.25, 0.375, 0.5, 0.625, 0.75, 0.875, 1] : List ℚ)
    ∧ (preferences.preferred_player_count = none → preferences.minimum_play_time = none →
       preferences.maximum_play_time = none → preferences.preferred_complexity_min = none →
       preferences.preferred_complexity_max = none → preferences.preferred_categories = [] →
       (calculate_compatibility game preferences).compatibility_score = 0.5)
    ∧ ((calculate_compatibility game preferences).details.all
          (fun kv => kv.2 == "compatible") = true →
       (calculate_compatibility game preferences).compatibility_score = 1) := by
  refine ⟨?_, ?_, ?_, ?_⟩
  · rcases playerCountFactor_cases game preferences with h1 | h1 | h1 <;>
      rcases playTimeFactor_cases game preferences with h2 | h2 | h2 <;>
      rcases complexityFactor_cases game preferences with h3 | h3 | h3 <;>
      rcases categoriesFactor_cases game preferences with h4 | h4 | h4 <;>
      unfold calculate_compatibility <;> rw [h1, h2, h3, h4] <;> dsimp only <;> decide
  · rcases playerCountFactor_cases game preferences with h1 | h1 | h1 <;>
      rcases playTimeFactor_cases game preferences with h2 | h2 | h2 <;>
      rcases complexityFactor_cases game preferences with h3 | h3 | h3 <;>
      rcases categoriesFactor_cases game preferences with h4 | h4 | h4 <;>
      unfold calculate_compatibility <;> rw [h1, h2, h3, h4] <;> dsimp only <;> decide
  · intro h1 h2 h3 h4 h5 h6
    norm_num [calculate_compatibility, playerCountFactor, playTimeFactor, complexityFactor,
      categoriesFactor, h1, h2, h3, h4, h5, h6]
  · intro hall
    rcases playerCountFactor_cases game preferences with h1 | h1 | h1 <;>
      rcases playTimeFactor_cases game preferences with h2 | h2 | h2 <;>
      rcases complexityFactor_cases game preferences with h3 | h3 | h3 <;>
      rcases categoriesFactor_cases game preferences with h4 | h4 | h4 <;>
      unfold calculate_compatibility at hall ⊢ <;> rw [h1, h2, h3, h4] at hall ⊢ <;>
      dsimp only at hall ⊢ <;> revert hall <;> decide

/-- Witness for C4: the conditional conjuncts discharged at concrete inputs
— all-unset preferences give score 0.5, and fully compatible preferences
give score 1. -/
theorem c4_score_formula_witness :
    (calculate_compatibility gEx pEmpty).compatibility_score = 0.5 ∧
    (calculate_compatibility gEx pFull).compatibility_score = 1 :=
  ⟨(c4_score_formula gEx pEmpty).2.2.1 rfl rfl rfl rfl rfl rfl,
   (c4_score_formula gEx pFull).2.2.2 (by decide)⟩

/-- Threshold behaviour of the recommendation string built by
`calculate_compatibility`, as a function of the final score. -/
theorem rec_threshold (s : ℚ) :
    ((if s ≥ (0.75 : ℚ) then "recommended" else "not_recommended") = "recommended" ↔
      0.75 ≤ s)
    ∧ ((if s ≥ (0.75 : ℚ) then "recommended" else "not_recommended") = "not_recommended" ↔
      s < 0.75) := by
  split_ifs with h
  · exact ⟨⟨fun _ => h, fun _ => rfl⟩,
      ⟨fun hc => absurd hc (by decide), fun hlt => absurd h (not_le.mpr hlt)⟩⟩
  · exact ⟨⟨fun hc => absurd hc (by decide), fun hle => absurd hle h⟩,
      ⟨fun _ => lt_of_not_ge h, fun _ => rfl⟩⟩

/-- Claim C5: the recommendation is `recommended` iff the score is at least
0.75 (so exactly 0.75 recommends), and `not_recommended` iff it is below
0.75 (so exactly 0.5 does not recommend). -/
theorem c5_recommendation_threshold (game : Game) (preferences : PlayerPreferences) :
    ((calculate_compatibility game preferences).recommendation = "recommended" ↔
      0.75 ≤ (calculate_compatibility game preferences).compatibility_score)
    ∧ ((calculate_compatibility game preferences).recommendation = "not_recommended" ↔
      (calculate_compatibility game preferences).compatibility_score < 0.75) :=
  rec_threshold _

/-- Claim C10: a `recommended` verdict requires at least two of the four
factor verdicts to be `compatible`. -/
theorem c10_recommended_needs_two_compatible (game : Game) (preferences : PlayerPreferences)
    (h : (calculate_compatibility game preferences).recommendation = "recommended") :
    2 ≤ ((calculate_compatibility game preferences).details.filter
          fun kv => kv.2 == "compatible").length := by
  rcases playerCountFactor_cases game preferences with h1 | h1 | h1 <;>
    rcases playTimeFactor_cases game preferences with h2 | h2 | h2 <;>
    rcases complexityFactor_cases game preferences with h3 | h3 | h3 <;>
    rcases categoriesFactor_cases game preferences with h4 | h4 | h4 <;>
    unfold calculate_compatibility at h ⊢ <;> rw [h1, h2, h3, h4] at h ⊢ <;>
    dsimp only at h ⊢ <;> revert h <;> decide

/-- Witness for C10 at a concrete recommended pair. -/
theorem c10_recommended_witness :
    2 ≤ ((calculate_compatibility gEx pFull).details.filter
          fun kv => kv.2 == "compatible").length :=
  c10_recommended_needs_two_compatible gEx pFull (by decide)

/-! ## Helper lemmas about the curated selection -/

theorem take_add_split {α : Type} :
    ∀ (l : List α) (m n : ℕ), l.take (m + n) = l.take m ++ (l.drop m).take n
  | _, 0, _ => by simp
  | [], _ + 1, _ => by simp
  | a :: l, m + 1, n => by
    simp only [Nat.succ_add, List.take_succ_cons, List.drop_succ_cons, List.cons_append,
      List.cons.injEq, true_and]
    exact take_add_split l m n

theorem playedIds_nodup (db : Db) (h : (db.games.map Game.id).Nodup) :
    (played_game_ids db).Nodup :=
  List.Nodup.sublist ((List.filter_sublist _).map Game.id) h

theorem mem_similarPool (db : Db) (g : Game) (hg : g ∈ similarPool db) :
    g.id ∉ played_game_ids db ∧ inWindow (similarityWindow db) g = true := by
  unfold similarPool sortByName at hg
  have hg' := (List.perm_insertionSort _ _).subset hg
  obtain ⟨-, hb⟩ := List.mem_filter.mp hg'
  rw [Bool.and_eq_true] at hb
  obtain ⟨h1, h2⟩ := hb
  refine ⟨fun hmem => ?_, h2⟩
  rw [Bool.not_eq_true'] at h1
  have hc : (played_game_ids db).contains g.id = true := by
    simpa [List.contains] using hmem
  simp [hc] at h1
  exact h1 hmem

theorem similar_subset_pool (db : Db) (limit x : ℕ) (hx : x ∈ similar_game_ids db limit) :
    ∃ g ∈ similarPool db, g.id = x := by
  unfold similar_game_ids at hx
  dsimp only at hx
  split at hx
  · obtain ⟨g, hg, rfl⟩ := List.mem_map.mp (List.mem_of_mem_take hx)
    exact ⟨g, hg, rfl⟩
  · simp at hx

theorem similar_not_played (db : Db) (limit x : ℕ) (hx : x ∈ similar_game_ids db limit) :
    x ∉ played_game_ids db := by
  obtain ⟨g, hg, rfl⟩ := similar_subset_pool db limit x hx
  exact (mem_similarPool db g hg).1

theorem similar_ids_nodup (db : Db) (limit : ℕ) (h : (db.games.map Game.id).Nodup) :
    (similar_game_ids db limit).Nodup := by
  unfold similar_game_ids
  dsimp only
  split
  · apply List.Nodup.sublist (List.take_sublist _ _)
    have hperm : ((similarPool db).map Game.id).Perm
        ((db.games.filter fun g =>
          !(played_game_ids db).contains g.id && inWindow (similarityWindow db) g).map
          Game.id) :=
      (List.perm_insertionSort _ _).map Game.id
    exact hperm.nodup_iff.mpr (List.Nodup.sublist ((List.filter_sublist _).map Game.id) h)
  · exact List.nodup_nil

theorem curated_ids_nodup (db : Db) (limit : ℕ) (h : (db.games.map Game.id).Nodup) :
    (all_curated_game_ids db limit).Nodup := by
  unfold all_curated_game_ids
  rw [List.nodup_append]
  exact ⟨playedIds_nodup db h, similar_ids_nodup db limit h,
    fun a ha hb => similar_not_played db limit a hb ha⟩

theorem resolve_foldl_eq_filterMap (db : Db) :
    ∀ (ids : List ℕ) (acc : List Game),
      ids.foldl
        (fun games gid =>
          match get_by_id db gid with
          | some game => games ++ [game]
          | none => games) acc
      = acc ++ ids.filterMap (get_by_id db)
  | [], acc => by simp
  | i :: t, acc => by
    simp only [List.foldl_cons, List.filterMap_cons]
    rcases hi : get_by_id db i with _ | g <;> dsimp only <;>
      rw [resolve_foldl_eq_filterMap db t _] <;> simp

/-! ## Claims C1, C2, C6-C9 -/

/-- Counterexample to claim C1: with played `min_players` values
2, 3, 3, 3 the mean is 2.75, so the claim's
`max(1, round(mean) − 1) = max(1, 3 − 1) = 2`, but the code computes
`max(1, int(mean − 1)) = max(1, int(1.75)) = 1`. -/
theorem c1_round_vs_truncation_cex :
    (similarityWindow cdb1).min_players_range = 1
    ∧ (specSimilarityWindow cdb1).min_players_range = 2
    ∧ similarityWindow cdb1 ≠ specSimilarityWindow cdb1 := by decide

/-- Claim C1 (amended): the window applies Python `int()` truncation toward
zero to mean − 1, mean + 2, mean × 0.5 and mean × 2 — truncation after the
offset, not rounding of the mean before it — and the results are clamped to
[1, −], [−, 10], [15, −], [−, 300]; the complexity window is
[max(1.0, mean − 1.0), min(5.0, mean + 1.0)] exactly as claimed. -/
theorem c1_similarity_window_amended (db : Db) (hne : playedRows db ≠ []) :
    (similarityWindow db =
      { min_players_range := max 1 (pyInt (avg_min_players db - 1))
        max_players_range := min 10 (pyInt (avg_max_players db + 2))
        min_time_range := max 15 (pyInt (avg_play_time db * 0.5))
        max_time_range := min 300 (pyInt (avg_play_time db * 2))
        min_complexity := max 1.0 (avg_complexity db - 1.0)
        max_complexity := min 5.0 (avg_complexity db + 1.0) })
    ∧ 1 ≤ (similarityWindow db).min_players_range
    ∧ (similarityWindow db).max_players_range ≤ 10
    ∧ 15 ≤ (similarityWindow db).min_time_range
    ∧ (similarityWindow db).max_time_range ≤ 300
    ∧ 1 ≤ (similarityWindow db).min_complexity
    ∧ (similarityWindow db).max_complexity ≤ 5 :=
  ⟨rfl, le_max_left _ _, min_le_left _ _, le_max_left _ _, min_le_left _ _,
    le_max_left _ _, min_le_left _ _⟩

/-- Witness for C1 at the concrete catalog `cdb1`. -/
theorem c1_similarity_window_witness : 1 ≤ (similarityWindow cdb1).min_players_range :=
  (c1_similarity_window_amended cdb1 (by decide)).2.1

/-- Counterexample to claim C2 at `cdb2`: the played portion comes back in
catalog row order [1, 2], not name order [2, 1] (no `ORDER BY` on the
played query), and slicing past `limit` returns nothing because the similar
query was limited to `limit − |P|` rows — the slice is not taken from the
conceptually unbounded name-ordered sequence [2, 1, 3]. -/
theorem c2_slice_cex :
    (get_curated_games cdb2 0 2).map Game.id ≠ spec_select_ids cdb2 0 2
    ∧ (get_curated_games cdb2 2 2).map Game.id ≠ spec_select_ids cdb2 2 2 := by decide

/-- Claim C2 (amended): the combined sequence is the played ids in the
order the (unordered) played query returns them, followed by the first
`max(0, limit − |P|)` similar ids ordered by name — the similar limit is
pushed into the query, so the sequence depends on `limit` — and `select`
returns its `[skip : skip+limit]` slice, resolved; for the fixed limit 10
the two pages `select(0,10)` and `select(10,10)` are still order-consistent
consecutive slices of one sequence and (given unique game ids) disjoint. -/
theorem c2_pagination_amended (db : Db) (skip limit : ℕ)
    (hne : playedRows db ≠ []) (hid : (db.games.map Game.id).Nodup) :
    (get_curated_games db skip limit =
      resolveLoop db (((played_game_ids db ++ similar_game_ids db limit).drop skip).take limit))
    ∧ paginated_game_ids db 0 10 ++ paginated_game_ids db 10 10 =
        (all_curated_game_ids db 10).take 20
    ∧ List.Disjoint (paginated_game_ids db 0 10) (paginated_game_ids db 10 10) := by
  refine ⟨?_, ?_, ?_⟩
  · unfold get_curated_games
    rw [if_neg (by simpa [List.isEmpty_iff] using hne)]
    rfl
  · unfold paginated_game_ids
    rw [List.drop_zero]
    exact (take_add_split (all_curated_game_ids db 10) 10 10).symm
  · intro a ha hb
    unfold paginated_game_ids at ha hb
    rw [List.drop_zero] at ha
    have hnd := curated_ids_nodup db 10 hid
    rw [← List.take_append_drop 10 (all_curated_game_ids db 10)] at hnd
    exact (List.nodup_append.mp hnd).2.2 ha (List.mem_of_mem_take hb)

/-- Witness for C2 at the concrete catalog `cdb2`. -/
theorem c2_pagination_witness :
    paginated_game_ids cdb2 0 10 ++ paginated_game_ids cdb2 10 10 =
      (all_curated_game_ids cdb2 10).take 20 :=
  (c2_pagination_amended cdb2 0 10 (by decide) (by decide)).2.1

/-- Counterexample to claim C6 at `cdb6`: the game with
`min_players = 1, max_players = 4` is returned by the code's fallback (its
player range overlaps [2, 6]) but has `min_players ∉ [2, 6]`, so the
claim's filter excludes it. -/
theorem c6_generic_filter_cex :
    (get_curated_games cdb6 0 10).map Game.id = [1]
    ∧ specGenericGames cdb6 0 10 = []
    ∧ get_curated_games cdb6 0 10 ≠ specGenericGames cdb6 0 10 := by decide

/-- Claim C6 (amended): with an empty played set, `select` returns exactly
the games whose player-count range overlaps [2, 6] (that is,
`max_players ≥ 2` and `min_players ≤ 6` — `get_all` interprets the
`min_players`/`max_players` parameters as a requested player range, not as
bounds on `min_players` itself) and whose `average_play_time ∈ [30, 120]`,
ordered by name and paginated by (skip, limit); no similarity computation
is involved. -/
theorem c6_fallback_amended (db : Db) (skip limit : ℕ) (h : playedRows db = []) :
    get_curated_games db skip limit =
      ((sortByName (db.games.filter fun g =>
          decide (2 ≤ g.max_players) && decide (g.min_players ≤ 6) &&
          decide (30 ≤ g.average_play_time) && decide (g.average_play_time ≤ 120))).drop
        skip).take limit := by
  unfold get_curated_games
  rw [if_pos (List.isEmpty_iff.mpr h)]
  unfold get_all
  dsimp only
  exact congrArg (fun l => ((sortByName l).drop skip).take limit)
    (List.filter_congr fun g _ => by simp)

/-- Witness for C6 at the concrete catalog `cdb6`. -/
theorem c6_fallback_witness :
    get_curated_games cdb6 0 10 =
      ((sortByName (cdb6.games.filter fun g =>
          decide (2 ≤ g.max_players) && decide (g.min_players ≤ 6) &&
          decide (30 ≤ g.average_play_time) && decide (g.average_play_time ≤ 120))).drop
        0).take 10 :=
  c6_fallback_amended cdb6 0 10 (by decide)

/-- Claim C7: `count()` returns `played_count = |P|` (distinct played
games), `similar_count = max(0, 150 − played_count)` and their sum, and its
result depends only on the played count — the similarity window is never
consulted, so catalogs with the same played count get the same counts. -/
theorem c7_count_formula (db : Db) :
    (get_curated_games_count db).played_games = (playedCountDistinct db : ℤ)
    ∧ (get_curated_games_count db).similar_games =
        max 0 (150 - (playedCountDistinct db : ℤ))
    ∧ (get_curated_games_count db).total_curated =
        (playedCountDistinct db : ℤ) + max 0 (150 - (playedCountDistinct db : ℤ))
    ∧ ∀ db2 : Db, playedCountDistinct db2 = playedCountDistinct db →
        get_curated_games_count db2 = get_curated_games_count db := by
  refine ⟨rfl, rfl, rfl, fun db2 h2 => ?_⟩
  unfold get_curated_games_count
  rw [h2]

/-- Witness for C7: `cdb7` extends `cdb2` with an extra unplayed game in
the similarity window, yet the counts agree. -/
theorem c7_count_witness : get_curated_games_count cdb7 = get_curated_games_count cdb2 :=
  (c7_count_formula cdb2).2.2.2 cdb7 (by decide)

/-- Claim C8: the similar-games query excludes every played id, and every
id selected by `select` comes from the played list or the similar list — so
a played id never appears in the similar portion of the result. -/
theorem c8_similar_excludes_played (db : Db) (skip limit x : ℕ) :
    (x ∈ similar_game_ids db limit → x ∉ played_game_ids db)
    ∧ (x ∈ paginated_game_ids db skip limit →
        x ∈ played_game_ids db ∨ x ∈ similar_game_ids db limit) := by
  refine ⟨similar_not_played db limit x, fun hx => ?_⟩
  have hx' : x ∈ all_curated_game_ids db limit :=
    ((List.take_sublist _ _).trans (List.drop_sublist _ _)).subset hx
  exact List.mem_append.mp hx'

/-- Witness for C8 at `cdb2` with limit 3, where the similar list is [3]. -/
theorem c8_similar_excludes_witness :
    (3 ∉ played_game_ids cdb2) ∧
    (1 ∈ played_game_ids cdb2 ∨ 1 ∈ similar_game_ids cdb2 3) :=
  ⟨(c8_similar_excludes_played cdb2 0 3 3).1 (by decide),
   (c8_similar_excludes_played cdb2 0 3 1).2 (by decide)⟩

/-- Claim C9: the resolution loop equals an order-preserving `filterMap`
over `get_by_id` — an id that fails to resolve is silently dropped and the
order of the survivors is preserved — and on the non-fallback path `select`
returns exactly that resolution of the paginated ids. -/
theorem c9_resolution_policy (db : Db) (skip limit : ℕ) :
    (∀ ids : List ℕ, resolveLoop db ids = ids.filterMap (get_by_id db))
    ∧ (∀ (ids : List ℕ) (gid : ℕ), get_by_id db gid = none →
        resolveLoop db (ids ++ [gid]) = resolveLoop db ids)
    ∧ (playedRows db ≠ [] →
        get_curated_games db skip limit =
          (paginated_game_ids db skip limit).filterMap (get_by_id db)) := by
  have hloop : ∀ ids : List ℕ, resolveLoop db ids = ids.filterMap (get_by_id db) := by
    intro ids
    unfold resolveLoop
    exact (resolve_foldl_eq_filterMap db ids []).trans (List.nil_append _)
  refine ⟨hloop, fun ids gid hg => ?_, fun hne => ?_⟩
  · rw [hloop, hloop, List.filterMap_append]
    simp [hg]
  · unfold get_curated_games
    rw [if_neg (by simpa [List.isEmpty_iff] using hne)]
    exact hloop _

/-- Witness for C9: a missing id (99) is dropped, and `select` on `cdb2` is
the resolution of its paginated ids. -/
theorem c9_resolution_witness :
    (resolveLoop cdb2 ([1] ++ [99]) = resolveLoop cdb2 [1])
    ∧ get_curated_games cdb2 0 2 = (paginated_game_ids cdb2 0 2).filterMap (get_by_id cdb2) :=
  ⟨(c9_resolution_policy cdb2 0 2).2.1 [1] 99 (by decide),
   (c9_resolution_policy cdb2 0 2).2.2 (by decide)⟩

end GameDecider
